import Mathlib

/-
A Lean model of the mailroom donor data model
(students/mattmaeda/mailroom_app/mailroom/model.py), together with proofs
of its specification properties.

Modelling conventions:
* Donation amounts are rationals (ℚ), modelling Python numbers exactly
  (the spec allows floating-point tolerance; every property proved here is
  exact over ℚ).
* A Python dict is an association list whose insertion-order semantics are
  made explicit: assignment to an existing key replaces the value in place,
  assignment to a fresh key appends at the end.
* A Python function that can raise returns an `Option`: `none` models the
  raised exception (`ZeroDivisionError` for `avg_donations`, the `TypeError`
  raised by formatting `None` with a fixed-point format spec in
  `send_letter`, and the `ZeroDivisionError` propagating out of
  `get_donor_report`).  `Donor.last_donation` is total: its `none` models the
  Python value `None` that the source returns after catching `IndexError`.
* File I/O is abstracted: `save_to_file` produces the ordered JSON object
  (name, donation list) pairs that `json.dump` writes, and `load_from_file`
  consumes the same, since `json` round-trips the object contents and order
  exactly.
-/

/-- A donor: a name and the ordered list of donation amounts
(`Donor.__init__` copies the initial list; the copy is implicit in a pure
model). -/
structure Donor where
  name : String
  donations : List ℚ
deriving DecidableEq

/-- `Donor.total_donations`: `sum(self.donations)`. -/
def Donor.total_donations (d : Donor) : ℚ := d.donations.sum

/-- `Donor.num_donations`: `len(self.donations)`. -/
def Donor.num_donations (d : Donor) : ℕ := d.donations.length

/-- `Donor.avg_donations`: `self.total_donations / len(self.donations)`.
`none` models the `ZeroDivisionError` raised when the donation list is
empty. -/
def Donor.avg_donations (d : Donor) : Option ℚ :=
  if d.donations.length = 0 then none
  else some (d.total_donations / (d.donations.length : ℚ))

/-- `Donor.last_donation`: `self.donations[-1]`, with the `IndexError` on an
empty list caught and turned into the value `None` (modelled by `none`). -/
def Donor.last_donation (d : Donor) : Option ℚ := d.donations.getLast?

/-- `Donor.add_donation`: `self.donations.append(amount)`. -/
def Donor.add_donation (d : Donor) (amount : ℚ) : Donor :=
  { d with donations := d.donations ++ [amount] }

/-- Python dict assignment `m[k] = v` on an insertion-ordered dict: replace
in place when `k` is present, append at the end otherwise. -/
def dictInsert (k : String) (v : Donor) : List (String × Donor) → List (String × Donor)
  | [] => [(k, v)]
  | (k0, v0) :: rest =>
      if k0 = k then (k0, v) :: rest else (k0, v0) :: dictInsert k v rest

/-- Python dict lookup `m.get(k)`: the value at `k`, or `None`. -/
def assocFind (k : String) : List (String × Donor) → Option Donor
  | [] => none
  | (k0, v) :: rest => if k0 = k then some v else assocFind k rest

/-- `DonorDB`: the database holding all donor information.  `donor_data` is
the insertion-ordered dict from donor name to `Donor`. -/
structure DonorDB where
  donor_data : List (String × Donor)
deriving DecidableEq

/-- `DonorDB.__init__(donors)`: the dict comprehension
`d.name: d for d in donors` built in iteration order. -/
def DonorDB.ofDonors (donors : List Donor) : DonorDB :=
  ⟨donors.foldl (fun acc d => dictInsert d.name d acc) []⟩

/-- `DonorDB.save_to_file`: the JSON object written out, as its ordered
(name, donation list) entries — `k: v.donations for k, v in donor_data`. -/
def DonorDB.save_to_file (db : DonorDB) : List (String × List ℚ) :=
  db.donor_data.map (fun kv => (kv.1, kv.2.donations))

/-- `DonorDB.load_from_file`: rebuild the database from the JSON object
entries — `cls([Donor(*d) for d in donors.items()])`. -/
def DonorDB.load_from_file (entries : List (String × List ℚ)) : DonorDB :=
  DonorDB.ofDonors (entries.map (fun e => ⟨e.1, e.2⟩))

/-- `DonorDB.donors`: `self.donor_data.values()` in insertion order. -/
def DonorDB.donors (db : DonorDB) : List Donor := db.donor_data.map Prod.snd

/-- `DonorDB.get_donor`: `self.donor_data.get(name)`. -/
def DonorDB.get_donor (db : DonorDB) (name : String) : Option Donor :=
  assocFind name db.donor_data

/-- `DonorDB.add_donor`: `donor = Donor(name); self.donor_data[name] = donor;
return donor`.  Returns the new donor together with the updated database. -/
def DonorDB.add_donor (db : DonorDB) (name : String) : Donor × DonorDB :=
  (⟨name, []⟩, ⟨dictInsert name ⟨name, []⟩ db.donor_data⟩)

/-- Python `str` left-justification to width `w` (format spec align `<`):
pad with spaces on the right, never truncate. -/
def ljust (s : String) (w : ℕ) : String :=
  s ++ String.mk (List.replicate (w - s.length) ' ')

/-- Python right-justification to width `w` (the default numeric alignment):
pad with spaces on the left, never truncate. -/
def rjust (s : String) (w : ℕ) : String :=
  String.mk (List.replicate (w - s.length) ' ') ++ s

/-- Round a rational to the nearest integer, ties to even — the rounding
Python applies when formatting a binary float with a fixed-point spec. -/
def roundHalfToEven (q : ℚ) : ℤ :=
  let f : ℤ := ⌊q⌋
  let frac : ℚ := q - (f : ℚ)
  if frac < 1 / 2 then f
  else if 1 / 2 < frac then f + 1
  else if f % 2 = 0 then f else f + 1

/-- Render a non-negative number of cents as a two-decimal string,
e.g. 2550 becomes "25.50". -/
def centsRepr (c : ℕ) : String :=
  toString (c / 100) ++ "." ++ (if c % 100 < 10 then "0" else "") ++ toString (c % 100)

/-- Python fixed-point formatting with precision 2 (format spec `.2f`). -/
def pyFixed2 (q : ℚ) : String :=
  if q < 0 then "-" ++ centsRepr (roundHalfToEven (-q * 100)).toNat
  else centsRepr (roundHalfToEven (q * 100)).toNat

/-- Python formatting with a space sign, width `w` and precision 2
(format spec like ` 12.2f`): a leading space for non-negative values, then
right-justified to width `w`. -/
def pySpaceFixed2 (q : ℚ) (w : ℕ) : String :=
  rjust (if q < 0 then pyFixed2 q else " " ++ pyFixed2 q) w

/-- Python integer formatting with a space sign and width `w`
(format spec like ` 12d`) for a natural number. -/
def pySpaceInt (n : ℕ) (w : ℕ) : String :=
  rjust (" " ++ toString n) w

/-- `THANK_YOU_LETTER.format(name, amount)`: the fixed thank-you template
with the name substituted in the first slot and the amount rendered with
format spec `.2f` in the second. -/
def THANK_YOU_LETTER_format (name : String) (amount : ℚ) : String :=
  "\nDear " ++ name ++
    (",\n\nThank you for your donation of $" ++ (pyFixed2 amount ++ ".\n"))

/-- `DonorDB.send_letter`: `THANK_YOU_LETTER.format(donor.name,
donor.last_donation)`.  When the donor has no donations, `last_donation` is
the Python value `None`, and formatting `None` with spec `.2f` raises a
`TypeError` — modelled by `none`. -/
def DonorDB.send_letter (donor : Donor) : Option String :=
  donor.last_donation.map (fun a => THANK_YOU_LETTER_format donor.name a)

/-- The field widths appearing in the `REPORT_HEADER` template:
donor 50, total 12, num 10, avg 12 (separated by literal pipes). -/
def REPORT_HEADER_widths : List ℕ := [50, 12, 10, 12]

/-- The field widths appearing in the `REPORT_LINE` template:
name 50, total 12, num 12, avg 14. -/
def REPORT_LINE_widths : List ℕ := [50, 12, 12, 14]

/-- `REPORT_HEADER.format(...)`: four left-justified fields of widths
50, 12, 10 and 12, each but the last followed by a pipe and a space. -/
def REPORT_HEADER_format (donor total num avg : String) : String :=
  ljust donor 50 ++ "| " ++ ljust total 12 ++ "| " ++ ljust num 10 ++ "| " ++ ljust avg 12

/-- `REPORT_LINE.format(...)`: the name left-justified to width 50, a space
and a dollar sign, then total (width 12, precision 2), gift count (width 12)
and average (width 14, precision 2), all with a space sign. -/
def REPORT_LINE_format (name : String) (total : ℚ) (num : ℕ) (avg : ℚ) : String :=
  ljust name 50 ++ " $" ++ pySpaceFixed2 total 12 ++ pySpaceInt num 12 ++ pySpaceFixed2 avg 14

/-- The header row of the donor report. -/
def reportHeaderStr : String :=
  REPORT_HEADER_format "Donor Name" "Total Given" "Num Gifts" "Average Gift"

/-- The separator row of the donor report: `"-" * 90`. -/
def dashes90 : String := String.mk (List.replicate 90 '-')

/-- `donor_dict.setdefault(k, []).append(d)` on an insertion-ordered dict
from total to donor group. -/
def setdefaultAppend (k : ℚ) (d : Donor) :
    List (ℚ × List Donor) → List (ℚ × List Donor)
  | [] => [(k, [d])]
  | (k0, ds) :: rest =>
      if k0 = k then (k0, ds ++ [d]) :: rest
      else (k0, ds) :: setdefaultAppend k d rest

/-- The grouping loop of `get_donor_report`: for each donor append it to the
group of its `total_donations`. -/
def donorDict (donors : List Donor) : List (ℚ × List Donor) :=
  donors.foldl (fun acc d => setdefaultAppend d.total_donations d acc) []

/-- The key list of a total-to-group dict. -/
def dictKeys (l : List (ℚ × List Donor)) : List ℚ := l.map Prod.fst

/-- `donor_dict[t]` (every key looked up by `get_donor_report` is present;
an absent key yields the empty group). -/
def groupGet (t : ℚ) : List (ℚ × List Donor) → List Donor
  | [] => []
  | (k, ds) :: rest => if k = t then ds else groupGet t rest

/-- `reversed(sorted(donor_dict))`: the keys sorted ascending, reversed. -/
def sortedKeysDesc (l : List (ℚ × List Donor)) : List ℚ :=
  ((dictKeys l).insertionSort (· ≤ ·)).reverse

/-- The sequence of donors in report-emission order: the nested loops
`for amount in reversed(sorted(donor_dict)): for donor in donor_dict[amount]`. -/
def DonorDB.reportRows (db : DonorDB) : List Donor :=
  (sortedKeysDesc (donorDict db.donors)).flatMap (fun t => groupGet t (donorDict db.donors))

/-- One data row of the report:
`REPORT_LINE.format(donor.name, donor.total_donations, donor.num_donations,
donor.avg_donations)`.  Evaluating `avg_donations` on a donor with no
donations raises, so the row is `none` there. -/
def renderLine (d : Donor) : Option String :=
  d.avg_donations.map (fun avg =>
    REPORT_LINE_format d.name d.total_donations d.num_donations avg)

/-- Render the report rows in order, propagating the first failure. -/
def renderLines : List Donor → Option (List String)
  | [] => some []
  | d :: rest =>
      match renderLine d, renderLines rest with
      | some s, some ss => some (s :: ss)
      | _, _ => none

/-- `DonorDB.get_donor_report`: the leading newline, the header row, the
90-dash separator, one row per donor (grouped by total, descending) each
followed by a newline, and a trailing double newline.  `none` models the
`ZeroDivisionError` escaping from `avg_donations` of a donation-less
donor. -/
def DonorDB.get_donor_report (db : DonorDB) : Option String :=
  (renderLines db.reportRows).map (fun lines =>
    "\n" ++ reportHeaderStr ++ "\n" ++ dashes90 ++ "\n" ++
      String.join (lines.map (fun s => s ++ "\n")) ++ "\n\n")

/-! ### Helper lemmas -/

theorem foldl_add_donation_donations (adds : List ℚ) :
    ∀ d : Donor, (adds.foldl (fun d a => d.add_donation a) d).donations = d.donations ++ adds := by
  induction adds with
  | nil => intro d; simp
  | cons a rest ih =>
      intro d
      rw [List.foldl_cons, ih]
      simp [Donor.add_donation]

theorem assocFind_dictInsert_self (k : String) (v : Donor) (l : List (String × Donor)) :
    assocFind k (dictInsert k v l) = some v := by
  induction l with
  | nil => simp [dictInsert, assocFind]
  | cons kv rest ih =>
      obtain ⟨k0, v0⟩ := kv
      by_cases h : k0 = k
      · simp [dictInsert, assocFind, h]
      · simp [dictInsert, assocFind, h, ih]

theorem assocFind_dictInsert_ne (j k : String) (v : Donor) (l : List (String × Donor))
    (h : j ≠ k) : assocFind j (dictInsert k v l) = assocFind j l := by
  induction l with
  | nil =>
      have hkj : k ≠ j := fun e => h e.symm
      simp [dictInsert, assocFind, hkj]
  | cons kv rest ih =>
      obtain ⟨k0, v0⟩ := kv
      by_cases hk : k0 = k
      · subst hk
        have hkj : k0 ≠ j := fun e => h e.symm
        simp [dictInsert, assocFind, hkj]
      · by_cases hj : k0 = j
        · simp [dictInsert, assocFind, hk, hj, h]
        · simp [dictInsert, assocFind, hk, hj, ih]

/-! ### Claims about Donor statistics and letters -/

/-- C3: for every donor, `total_donations` equals the sum of the initial
donation list plus every value passed to `add_donation` since construction,
and the sum is independent of the order of summation. -/
theorem total_donations_sums (name : String) (init adds other : List ℚ)
    (hperm : other.Perm (init ++ adds)) :
    (adds.foldl (fun d a => d.add_donation a) (Donor.mk name init)).total_donations
        = init.sum + adds.sum
    ∧ (Donor.mk name other).total_donations = init.sum + adds.sum := by
  constructor
  · simp [Donor.total_donations, foldl_add_donation_donations]
  · simp [Donor.total_donations, hperm.sum_eq]

theorem total_donations_sums_witness :
    ([(7 : ℚ), 100, 200]).Perm ([(100 : ℚ), 200] ++ [7])
    ∧ ((([(7 : ℚ)]).foldl (fun d a => d.add_donation a)
          (Donor.mk "Alice" [100, 200])).total_donations
        = ([(100 : ℚ), 200]).sum + ([(7 : ℚ)]).sum
      ∧ (Donor.mk "Alice" [(7 : ℚ), 100, 200]).total_donations
        = ([(100 : ℚ), 200]).sum + ([(7 : ℚ)]).sum) :=
  ⟨by decide, total_donations_sums "Alice" [100, 200] [7] [7, 100, 200] (by decide)⟩

/-- C4: `avg_donations` fails (with a `ZeroDivisionError`, modelled by
`none`) on a donor with no donations, and returns total divided by count
for a donor with at least one donation. -/
theorem avg_donations_spec (d : Donor) :
    (d.donations = [] → d.avg_donations = none)
    ∧ (d.donations ≠ [] →
        d.avg_donations = some (d.total_donations / (d.num_donations : ℚ))) := by
  constructor
  · intro h; simp [Donor.avg_donations, h]
  · intro h
    simp [Donor.avg_donations, Donor.num_donations, List.length_eq_zero, h]

theorem avg_donations_spec_witness :
    (Donor.mk "A" []).avg_donations = none
    ∧ (Donor.mk "B" [2, 4]).avg_donations
        = some ((Donor.mk "B" [2, 4]).total_donations
            / ((Donor.mk "B" [2, 4]).num_donations : ℚ)) :=
  ⟨(avg_donations_spec (Donor.mk "A" [])).1 rfl,
   (avg_donations_spec (Donor.mk "B" [2, 4])).2 (by decide)⟩

/-- C5: `last_donation` returns the explicit absent value `None` (never an
error) on a donor with no donations, and equals the most recently appended
amount otherwise. -/
theorem last_donation_spec (d : Donor) (a : ℚ) :
    (d.donations = [] → d.last_donation = none)
    ∧ (d.add_donation a).last_donation = some a := by
  constructor
  · intro h; simp [Donor.last_donation, h]
  · simp [Donor.last_donation, Donor.add_donation, List.getLast?_concat]

theorem last_donation_spec_witness :
    (Donor.mk "A" []).last_donation = none
    ∧ ((Donor.mk "B" [10]).add_donation 5).last_donation = some 5 :=
  ⟨(last_donation_spec (Donor.mk "A" []) 0).1 rfl,
   (last_donation_spec (Donor.mk "B" [10]) 5).2⟩

/-- C6: `add_donor(name)` creates a donor with no donations, stores it
under `name` (overwriting whatever donor was stored there, discarding its
donations), leaves every other name unchanged, and returns the new donor. -/
theorem add_donor_spec (db : DonorDB) (name k : String) (hk : k ≠ name) :
    (db.add_donor name).1 = Donor.mk name []
    ∧ (db.add_donor name).2.get_donor name = some (Donor.mk name [])
    ∧ (db.add_donor name).2.get_donor k = db.get_donor k := by
  refine ⟨rfl, ?_, ?_⟩
  · exact assocFind_dictInsert_self name _ db.donor_data
  · exact assocFind_dictInsert_ne k name _ db.donor_data hk

theorem add_donor_spec_witness :
    ("Y" : String) ≠ "X"
    ∧ (((DonorDB.mk [("X", Donor.mk "X" [5])]).add_donor "X").1 = Donor.mk "X" []
      ∧ ((DonorDB.mk [("X", Donor.mk "X" [5])]).add_donor "X").2.get_donor "X"
          = some (Donor.mk "X" [])
      ∧ ((DonorDB.mk [("X", Donor.mk "X" [5])]).add_donor "X").2.get_donor "Y"
          = (DonorDB.mk [("X", Donor.mk "X" [5])]).get_donor "Y") :=
  ⟨by decide, add_donor_spec (DonorDB.mk [("X", Donor.mk "X" [5])]) "X" "Y" (by decide)⟩

/-- C7: for a donor with donations `[10, 25.5]`, `send_letter` returns the
fixed template with the name substituted and the most recent donation
formatted to two decimal places with a dollar prefix: the donation line
reads `Thank you for your donation of $25.50.`. -/
theorem send_letter_format (name : String) :
    DonorDB.send_letter (Donor.mk name [10, 51 / 2])
      = some ("\nDear " ++ name ++ ",\n\nThank you for your donation of $25.50.\n") := by
  have hneg : ¬ ((51 : ℚ) / 2 < 0) := by norm_num
  have hq : ((51 : ℚ) / 2) * 100 = ((2550 : ℤ) : ℚ) := by norm_num
  have hfl : roundHalfToEven (((2550 : ℤ) : ℚ)) = 2550 := by
    unfold roundHalfToEven
    rw [Int.floor_intCast]
    norm_num
  have h2 : pyFixed2 ((51 : ℚ) / 2) = "25.50" := by
    unfold pyFixed2
    rw [if_neg hneg, hq, hfl]
    decide
  show some (THANK_YOU_LETTER_format name ((51 : ℚ) / 2)) = _
  unfold THANK_YOU_LETTER_format
  rw [h2]
  congr 1

/-- C8 counterexample: on a donor with no donations, `send_letter` does not
return a rendered letter — formatting the absent value `None` with the
fixed-point spec raises a `TypeError` (modelled by `none`). -/
theorem send_letter_no_donations_cex :
    DonorDB.send_letter (Donor.mk "Bob" []) = none
    ∧ ¬ ∃ s : String, DonorDB.send_letter (Donor.mk "Bob" []) = some s := by
  refine ⟨rfl, ?_⟩
  rintro ⟨s, hs⟩
  rw [show DonorDB.send_letter (Donor.mk "Bob" []) = none from rfl] at hs
  exact Option.noConfusion hs

/-- C8 (amended): for every donor with no donations, `send_letter` passes
the absent last-donation value into the template formatting, which fails
(a `TypeError` from applying the fixed-point format spec to `None`,
modelled by `none`); no rendered letter is returned. -/
theorem send_letter_no_donations (d : Donor) (h : d.donations = []) :
    DonorDB.send_letter d = none := by
  simp [DonorDB.send_letter, Donor.last_donation, h]

theorem send_letter_no_donations_witness :
    (Donor.mk "Ann" []).donations = [] ∧ DonorDB.send_letter (Donor.mk "Ann" []) = none :=
  ⟨rfl, send_letter_no_donations (Donor.mk "Ann" []) rfl⟩

/-- C9 counterexample: the header row does not use the same column widths
as the data rows — the templates give widths 50, 12, 10, 12 for the header
but 50, 12, 12, 14 for the data rows; concretely, the rendered num-gifts
header field is 10 characters wide while the rendered num-gifts data field
is 12 characters wide. -/
theorem report_header_widths_cex :
    REPORT_HEADER_widths ≠ REPORT_LINE_widths
    ∧ (ljust "Num Gifts" 10).length ≠ (pySpaceInt 1 12).length := by
  decide

/-- C9 (amended): every report produced by `get_donor_report` begins with a
leading newline, then a header row whose column titles are left-justified
to widths 50, 12, 10 and 12 and separated by a pipe and a space (the data
rows instead use widths 50, 12, 12, 14), then a separator line of exactly
90 dash characters, and the report ends with a trailing double newline. -/
theorem get_donor_report_layout (db : DonorDB) (s : String)
    (h : db.get_donor_report = some s) :
    ∃ body : String,
      s = "\n" ++ reportHeaderStr ++ "\n" ++ dashes90 ++ "\n" ++ body ++ "\n\n"
      ∧ reportHeaderStr
          = ljust "Donor Name" 50 ++ "| " ++ ljust "Total Given" 12 ++ "| "
              ++ ljust "Num Gifts" 10 ++ "| " ++ ljust "Average Gift" 12
      ∧ dashes90.length = 90
      ∧ dashes90.toList.all (fun c => c = '-') = true := by
  unfold DonorDB.get_donor_report at h
  cases hr : renderLines db.reportRows with
  | none => rw [hr] at h; exact Option.noConfusion h
  | some lines =>
      rw [hr] at h
      have h2 : some ("\n" ++ reportHeaderStr ++ "\n" ++ dashes90 ++ "\n" ++
          String.join (lines.map (fun t => t ++ "\n")) ++ "\n\n") = some s := h
      refine ⟨String.join (lines.map (fun t => t ++ "\n")),
        (Option.some.inj h2).symm, rfl, by decide, by decide⟩

theorem get_donor_report_layout_witness :
    (DonorDB.mk []).get_donor_report
        = some ("\n" ++ reportHeaderStr ++ "\n" ++ dashes90 ++ "\n" ++ "" ++ "\n\n")
    ∧ ∃ body : String,
        ("\n" ++ reportHeaderStr ++ "\n" ++ dashes90 ++ "\n" ++ "" ++ "\n\n")
            = "\n" ++ reportHeaderStr ++ "\n" ++ dashes90 ++ "\n" ++ body ++ "\n\n"
        ∧ reportHeaderStr
            = ljust "Donor Name" 50 ++ "| " ++ ljust "Total Given" 12 ++ "| "
                ++ ljust "Num Gifts" 10 ++ "| " ++ ljust "Average Gift" 12
        ∧ dashes90.length = 90
        ∧ dashes90.toList.all (fun c => c = '-') = true :=
  ⟨rfl, get_donor_report_layout (DonorDB.mk []) _ rfl⟩

/-! ### Round-trip lemmas -/

theorem dictInsert_fresh (k : String) (v : Donor) (l : List (String × Donor))
    (h : k ∉ l.map Prod.fst) : dictInsert k v l = l ++ [(k, v)] := by
  induction l with
  | nil => rfl
  | cons kv rest ih =>
      obtain ⟨k0, v0⟩ := kv
      have h1 : ¬ k0 = k := by
        intro e; exact h (by simp [e])
      have h2 : k ∉ rest.map Prod.fst := by
        intro m; exact h (by simp [m])
      simp [dictInsert, h1, ih h2]

theorem ofDonors_foldl_eq (ds : List Donor) :
    ∀ acc : List (String × Donor),
      (∀ d ∈ ds, d.name ∉ acc.map Prod.fst) → (ds.map Donor.name).Nodup →
      ds.foldl (fun a d => dictInsert d.name d a) acc
        = acc ++ ds.map (fun d => (d.name, d)) := by
  induction ds with
  | nil => intro acc _ _; simp
  | cons d rest ih =>
      intro acc hfresh hnd
      have hd : d.name ∉ acc.map Prod.fst := hfresh d (by simp)
      have hnd1 : d.name ∉ rest.map Donor.name := by
        have := hnd
        simp only [List.map_cons, List.nodup_cons] at this
        exact this.1
      have hnd2 : (rest.map Donor.name).Nodup := by
        have := hnd
        simp only [List.map_cons, List.nodup_cons] at this
        exact this.2
      have hfresh2 : ∀ e ∈ rest, e.name ∉ (acc ++ [(d.name, d)]).map Prod.fst := by
        intro e he hmem
        simp only [List.map_append, List.mem_append, List.map_cons, List.map_nil,
          List.mem_cons, List.not_mem_nil, or_false] at hmem
        rcases hmem with hacc | hname
        · exact hfresh e (List.mem_cons_of_mem d he) hacc
        · exact hnd1 (List.mem_map.mpr ⟨e, he, hname⟩)
      rw [List.foldl_cons, dictInsert_fresh d.name d acc hd, ih _ hfresh2 hnd2]
      simp

theorem ofDonors_eq (ds : List Donor) (h : (ds.map Donor.name).Nodup) :
    (DonorDB.ofDonors ds).donor_data = ds.map (fun d => (d.name, d)) := by
  have := ofDonors_foldl_eq ds [] (by simp) h
  simpa [DonorDB.ofDonors] using this

theorem load_save_structure (db : DonorDB) (h : (db.donor_data.map Prod.fst).Nodup) :
    (DonorDB.load_from_file db.save_to_file).donor_data
      = db.donor_data.map (fun kv => (kv.1, Donor.mk kv.1 kv.2.donations)) := by
  unfold DonorDB.load_from_file DonorDB.save_to_file
  rw [List.map_map, ofDonors_eq]
  · rw [List.map_map]
    rfl
  · rw [List.map_map]
    exact h

theorem assocFind_map_rebuild (n : String) (l : List (String × Donor)) :
    (assocFind n (l.map (fun kv => (kv.1, Donor.mk kv.1 kv.2.donations)))).map Donor.donations
      = (assocFind n l).map Donor.donations := by
  induction l with
  | nil => rfl
  | cons kv rest ih =>
      obtain ⟨k0, v0⟩ := kv
      by_cases hk : k0 = n
      · simp [assocFind, hk]
      · simp [assocFind, hk, ih]

/-- C1: for every non-empty database whose dict keys are distinct (as the
keys of a Python dict always are), saving and reloading yields an
equivalent mapping from donor name to donation list: the same names in the
same order, and for each name the same donations in the same order. -/
theorem save_load_round_trip (db : DonorDB)
    (hnd : (db.donor_data.map Prod.fst).Nodup) (hne : db.donor_data ≠ []) :
    (DonorDB.load_from_file db.save_to_file).donor_data.map Prod.fst
        = db.donor_data.map Prod.fst
    ∧ ∀ n : String,
        ((DonorDB.load_from_file db.save_to_file).get_donor n).map Donor.donations
          = (db.get_donor n).map Donor.donations := by
  have hs := load_save_structure db hnd
  constructor
  · rw [hs, List.map_map]
    rfl
  · intro n
    unfold DonorDB.get_donor
    rw [hs]
    exact assocFind_map_rebuild n db.donor_data

theorem save_load_round_trip_witness :
    ((DonorDB.mk [("Alice", Donor.mk "Alice" [100, 200]),
        ("Bob", Donor.mk "Bob" [50])]).donor_data.map Prod.fst).Nodup
    ∧ (DonorDB.mk [("Alice", Donor.mk "Alice" [100, 200]),
        ("Bob", Donor.mk "Bob" [50])]).donor_data ≠ []
    ∧ ((DonorDB.load_from_file (DonorDB.mk [("Alice", Donor.mk "Alice" [100, 200]),
          ("Bob", Donor.mk "Bob" [50])]).save_to_file).donor_data.map Prod.fst
          = (DonorDB.mk [("Alice", Donor.mk "Alice" [100, 200]),
              ("Bob", Donor.mk "Bob" [50])]).donor_data.map Prod.fst
      ∧ ∀ n : String,
          ((DonorDB.load_from_file (DonorDB.mk [("Alice", Donor.mk "Alice" [100, 200]),
              ("Bob", Donor.mk "Bob" [50])]).save_to_file).get_donor n).map Donor.donations
            = ((DonorDB.mk [("Alice", Donor.mk "Alice" [100, 200]),
                ("Bob", Donor.mk "Bob" [50])]).get_donor n).map Donor.donations) :=
  ⟨by decide, by decide, save_load_round_trip _ (by decide) (by decide)⟩

/-! ### Report grouping lemmas -/

theorem groupGet_setdefaultAppend (t k : ℚ) (d : Donor) (l : List (ℚ × List Donor)) :
    groupGet t (setdefaultAppend k d l)
      = if t = k then groupGet t l ++ [d] else groupGet t l := by
  induction l with
  | nil =>
      by_cases h : t = k
      · simp [setdefaultAppend, groupGet, h]
      · have hk : ¬ k = t := fun e => h e.symm
        simp [setdefaultAppend, groupGet, h, hk]
  | cons kv rest ih =>
      obtain ⟨k0, ds⟩ := kv
      by_cases hk : k0 = k
      · subst hk
        by_cases ht : k0 = t
        · subst ht
          simp [setdefaultAppend, groupGet]
        · have htk : ¬ t = k0 := fun e => ht e.symm
          simp [setdefaultAppend, groupGet, ht, htk]
      · by_cases ht : k0 = t
        · subst ht
          simp [setdefaultAppend, groupGet, hk]
        · simp [setdefaultAppend, groupGet, hk, ht, ih]

theorem groupGet_foldl (ds : List Donor) :
    ∀ (acc : List (ℚ × List Donor)) (t : ℚ),
      groupGet t (ds.foldl (fun a d => setdefaultAppend d.total_donations d a) acc)
        = groupGet t acc ++ ds.filter (fun d => decide (d.total_donations = t)) := by
  induction ds with
  | nil => intro acc t; simp
  | cons d rest ih =>
      intro acc t
      rw [List.foldl_cons, ih, groupGet_setdefaultAppend]
      by_cases h : t = d.total_donations
      · rw [if_pos h]
        have hb : decide (d.total_donations = t) = true := by simp [h]
        simp [List.filter_cons, hb]
      · rw [if_neg h]
        have hb : decide (d.total_donations = t) = false := by
          simp only [decide_eq_false_iff_not]
          exact fun e => h e.symm
        simp [List.filter_cons, hb]

theorem groupGet_donorDict (ds : List Donor) (t : ℚ) :
    groupGet t (donorDict ds) = ds.filter (fun d => decide (d.total_donations = t)) := by
  have := groupGet_foldl ds [] t
  simpa [donorDict, groupGet] using this

theorem dictKeys_cons (kv : ℚ × List Donor) (rest : List (ℚ × List Donor)) :
    dictKeys (kv :: rest) = kv.1 :: dictKeys rest := rfl

theorem dictKeys_setdefaultAppend (k : ℚ) (d : Donor) (l : List (ℚ × List Donor)) :
    dictKeys (setdefaultAppend k d l)
      = if k ∈ dictKeys l then dictKeys l else dictKeys l ++ [k] := by
  induction l with
  | nil => simp [setdefaultAppend, dictKeys]
  | cons kv rest ih =>
      obtain ⟨k0, ds⟩ := kv
      by_cases h : k0 = k
      · subst h
        simp [setdefaultAppend, dictKeys_cons]
      · have hk : ¬ k = k0 := fun e => h e.symm
        simp only [setdefaultAppend, if_neg h, dictKeys_cons, ih, List.mem_cons, hk,
          false_or]
        by_cases h2 : k ∈ dictKeys rest
        · simp [h2]
        · simp [h2]

theorem mem_dictKeys_setdefaultAppend (t k : ℚ) (d : Donor) (l : List (ℚ × List Donor)) :
    t ∈ dictKeys (setdefaultAppend k d l) ↔ t ∈ dictKeys l ∨ t = k := by
  rw [dictKeys_setdefaultAppend]
  by_cases h : k ∈ dictKeys l
  · rw [if_pos h]
    constructor
    · exact Or.inl
    · rintro (h1 | rfl)
      · exact h1
      · exact h
  · rw [if_neg h]
    simp

theorem mem_dictKeys_foldl (ds : List Donor) :
    ∀ (acc : List (ℚ × List Donor)) (t : ℚ),
      t ∈ dictKeys (ds.foldl (fun a d => setdefaultAppend d.total_donations d a) acc)
        ↔ t ∈ dictKeys acc ∨ ∃ d ∈ ds, d.total_donations = t := by
  induction ds with
  | nil => intro acc t; simp
  | cons d rest ih =>
      intro acc t
      rw [List.foldl_cons, ih, mem_dictKeys_setdefaultAppend]
      constructor
      · rintro ((ha | he) | ⟨e, hm, ht⟩)
        · exact Or.inl ha
        · exact Or.inr ⟨d, List.mem_cons_self d rest, he.symm⟩
        · exact Or.inr ⟨e, List.mem_cons_of_mem d hm, ht⟩
      · rintro (ha | ⟨e, hm, ht⟩)
        · exact Or.inl (Or.inl ha)
        · rcases List.mem_cons.mp hm with rfl | hr
          · exact Or.inl (Or.inr ht.symm)
          · exact Or.inr ⟨e, hr, ht⟩

theorem nodup_dictKeys_foldl (ds : List Donor) :
    ∀ acc : List (ℚ × List Donor), (dictKeys acc).Nodup →
      (dictKeys (ds.foldl (fun a d => setdefaultAppend d.total_donations d a) acc)).Nodup := by
  induction ds with
  | nil => intro acc h; simpa
  | cons d rest ih =>
      intro acc h
      rw [List.foldl_cons]
      apply ih
      rw [dictKeys_setdefaultAppend]
      by_cases hm : d.total_donations ∈ dictKeys acc
      · rwa [if_pos hm]
      · rw [if_neg hm]
        refine List.Nodup.append h (List.nodup_singleton _) ?_
        intro x hx hxs
        simp only [List.mem_singleton] at hxs
        subst hxs
        exact hm hx

theorem sortedKeysDesc_sorted_gt (l : List (ℚ × List Donor)) (h : (dictKeys l).Nodup) :
    (sortedKeysDesc l).Sorted (· > ·) := by
  unfold sortedKeysDesc
  have hs : ((dictKeys l).insertionSort (· ≤ ·)).Sorted (· ≤ ·) :=
    List.sorted_insertionSort _ _
  have hn : ((dictKeys l).insertionSort (· ≤ ·)).Nodup :=
    ((List.perm_insertionSort _ _).nodup_iff).mpr h
  refine List.pairwise_reverse.mpr ?_
  exact (hs.and hn).imp (fun ha => lt_of_le_of_ne ha.1 ha.2)

theorem mem_sortedKeysDesc (l : List (ℚ × List Donor)) (t : ℚ) :
    t ∈ sortedKeysDesc l ↔ t ∈ dictKeys l := by
  unfold sortedKeysDesc
  simp

theorem reportRows_spec (db : DonorDB) :
    ∃ ts : List ℚ,
      ts.Sorted (· > ·)
      ∧ (∀ t : ℚ, t ∈ ts ↔ ∃ d ∈ db.donors, d.total_donations = t)
      ∧ db.reportRows
          = ts.flatMap (fun t => db.donors.filter (fun d => decide (d.total_donations = t))) := by
  refine ⟨sortedKeysDesc (donorDict db.donors), ?_, ?_, ?_⟩
  · exact sortedKeysDesc_sorted_gt _ (nodup_dictKeys_foldl db.donors [] (by simp [dictKeys]))
  · intro t
    rw [mem_sortedKeysDesc]
    have := mem_dictKeys_foldl db.donors [] t
    simpa [donorDict, dictKeys] using this
  · unfold DonorDB.reportRows
    have hf : (fun t => groupGet t (donorDict db.donors))
        = (fun t => db.donors.filter (fun d => decide (d.total_donations = t))) :=
      funext (fun t => groupGet_donorDict db.donors t)
    rw [hf]

/-- C2: the report emitted by `get_donor_report` lists the donors grouped
by identical `total_donations` value, with the distinct totals in strictly
descending order, and the donors of a tied-total group adjacent in their
original storage order (the group for total `t` is exactly the donors with
total `t`, filtered from the stored sequence in order). -/
theorem get_donor_report_grouping (db : DonorDB) :
    (∃ ts : List ℚ,
      ts.Sorted (· > ·)
      ∧ (∀ t : ℚ, t ∈ ts ↔ ∃ d ∈ db.donors, d.total_donations = t)
      ∧ db.reportRows
          = ts.flatMap (fun t => db.donors.filter (fun d => decide (d.total_donations = t))))
    ∧ db.get_donor_report = (renderLines db.reportRows).map (fun lines =>
        "\n" ++ reportHeaderStr ++ "\n" ++ dashes90 ++ "\n" ++
          String.join (lines.map (fun s => s ++ "\n")) ++ "\n\n") :=
  ⟨reportRows_spec db, rfl⟩

theorem renderLines_none (ds : List Donor) (d : Donor)
    (hd : d ∈ ds) (he : renderLine d = none) : renderLines ds = none := by
  induction ds with
  | nil => cases hd
  | cons e rest ih =>
      rcases List.mem_cons.mp hd with h1 | hm
      · subst h1
        cases hrest : renderLines rest <;> simp [renderLines, he, hrest]
      · have hr := ih hm
        cases hl : renderLine e <;> simp [renderLines, hl, hr]

/-- C10: a database containing a donor with no donations produces no report:
`get_donor_report` evaluates that donor's `avg_donations` while rendering
its row, and the `ZeroDivisionError` (modelled by `none`) escapes. -/
theorem get_donor_report_empty_donor (db : DonorDB) (d : Donor)
    (hd : d ∈ db.donors) (he : d.donations = []) :
    db.get_donor_report = none := by
  obtain ⟨ts, _, hmem, heq⟩ := reportRows_spec db
  have ht : d.total_donations ∈ ts := (hmem d.total_donations).mpr ⟨d, hd, rfl⟩
  have hrow : d ∈ db.reportRows := by
    rw [heq]
    exact List.mem_flatMap.mpr
      ⟨d.total_donations, ht, List.mem_filter.mpr ⟨hd, by simp⟩⟩
  have hline : renderLine d = none := by
    simp [renderLine, Donor.avg_donations, he]
  unfold DonorDB.get_donor_report
  rw [renderLines_none db.reportRows d hrow hline]
  rfl

theorem get_donor_report_empty_donor_witness :
    Donor.mk "A" [] ∈ (DonorDB.mk [("A", Donor.mk "A" [])]).donors
    ∧ (Donor.mk "A" []).donations = []
    ∧ (DonorDB.mk [("A", Donor.mk "A" [])]).get_donor_report = none :=
  ⟨by decide, rfl,
   get_donor_report_empty_donor (DonorDB.mk [("A", Donor.mk "A" [])])
     (Donor.mk "A" []) (by decide) rfl⟩
